import Mathlib

/-!
Verification of the KawaiiKlarity backend (src/be/index.ts).

The backend is a single Bun server exposing a WebSocket chat at /chat and
HTTP endpoints /api/chat, /api/transcribe, /health, plus CORS preflight and
a 404 default.  This file gives a shallow embedding of that code:

* JavaScript randomness (Math.random picking one of n canned strings) is
  modelled by an explicit natural-number index reduced mod the list length.
* Date.now() is modelled by an explicit `now : Nat` argument.
* A request body is modelled by the outcome of parsing it (malformed JSON,
  or a parsed object), since the handlers only ever see that outcome.
* WebSocket handlers are modelled as functions from the connection data and
  the inbound frame to the list of effects (sends, publishes, subscribes)
  they perform, in program order.
* The reference to the undeclared identifier `audioFile` in
  handleTranscribeRequest (line 118 of src/be/index.ts) is modelled by an
  explicit scope lookup that raises a ReferenceError, which the outer
  try/catch of the handler converts to a 500 response.
-/

namespace KawaiiKlarity

/-! ### HTTP responses and CORS headers -/

/-- getCORSHeaders (src/be/index.ts lines 2-9): the four fixed permissive
cross-origin headers attached to responses. -/
def getCORSHeaders : List (String × String) :=
  [("Access-Control-Allow-Origin", "*"),
   ("Access-Control-Allow-Methods", "GET, POST, PUT, DELETE, OPTIONS"),
   ("Access-Control-Allow-Headers", "Content-Type, Authorization"),
   ("Access-Control-Max-Age", "86400")]

/-- The JSON-serialisable bodies the backend produces. -/
inductive RespBody where
  /-- `\x7b error \x7d` -- the /api/chat error shape -/
  | chatError (error : String)
  /-- a ChatResponse `\x7b role, content \x7d` -/
  | chatOk (role : String) (content : String)
  /-- a TranscribeResponse `\x7b transcription?, success, error? \x7d` -/
  | transcribe (transcription : Option String) (success : Bool) (error : Option String)
  /-- the /health body `\x7b status, timestamp \x7d` -/
  | health (status : String) (timestamp : String)
  /-- a plain-text (non-JSON) body -/
  | text (s : String)
  /-- `null` body (preflight response) -/
  | empty
deriving DecidableEq

structure HttpResponse where
  status : Nat
  headers : List (String × String)
  body : RespBody
deriving DecidableEq

/-- The headers `\x7b "Content-Type": "application/json", ...getCORSHeaders() \x7d`
used by every JSON response in the file. -/
def jsonCORS : List (String × String) :=
  ("Content-Type", "application/json") :: getCORSHeaders

/-- A response carries all four CORS headers. -/
def hasCORSHeaders (r : HttpResponse) : Bool :=
  getCORSHeaders.all (fun h => r.headers.contains h)

/-! ### /api/chat -/

structure ChatMessage where
  text : String
  role : String
deriving DecidableEq

structure ChatResponse where
  role : String
  content : String
deriving DecidableEq

/-- The five canned responses of generateAIResponse (lines 13-19). -/
def responses : List String :=
  ["That's a really interesting point! Let me think about that for a moment...",
   "I understand what you're asking. Here's my perspective on that:",
   "Great question! Based on what you've shared, I think...",
   "That reminds me of something important we should consider:",
   "Let me help you with that! Here's what I would suggest:"]

/-- `l[Math.floor(Math.random() * l.length)]`: the random draw is an explicit
index `rand`, reduced mod the list length. -/
def pickRandom (l : List String) (rand : Nat) : String :=
  l.getD (rand % l.length) ""

/-- generateAIResponse (lines 12-26): ignores its `_messages` argument and
returns a random canned assistant message. -/
def generateAIResponse (_messages : List ChatMessage) (rand : Nat) : ChatResponse :=
  { role := "assistant", content := pickRandom responses rand }

/-- The `messages` field of a parsed /api/chat body, as the JavaScript check
`!body.messages || !Array.isArray(body.messages)` classifies it: either a JSON
array (arrays are always truthy, so any array -- including the empty one --
passes), or anything else (absent, null, falsy, or a non-array value). -/
inductive MessagesField where
  | array (msgs : List ChatMessage)
  | notArray
deriving DecidableEq

/-- A parsed ChatRequest body: `messages`, `model`, `webSearch`. -/
structure ChatBody where
  messages : MessagesField
  model : String
  webSearch : Bool
deriving DecidableEq

/-- The outcome of `await req.json()` on a /api/chat request. -/
inductive ChatReqBody where
  /-- JSON.parse threw: the body is not parseable JSON -/
  | malformed
  | parsed (body : ChatBody)
deriving DecidableEq

/-- handleChatRequest (lines 72-107).  A malformed body throws inside the
try, landing in the catch (500); a parsed body whose `messages` is not an
array is rejected with 400; otherwise generateAIResponse's answer is returned
with 200. -/
def handleChatRequest (req : ChatReqBody) (rand : Nat) : HttpResponse :=
  match req with
  | .malformed =>
      { status := 500, headers := jsonCORS, body := .chatError "Internal server error" }
  | .parsed body =>
      match body.messages with
      | .notArray =>
          { status := 400, headers := jsonCORS, body := .chatError "Messages array is required" }
      | .array msgs =>
          let r := generateAIResponse msgs rand
          { status := 200, headers := jsonCORS, body := .chatOk r.role r.content }

/-- The validation of handleChatRequest passes exactly when `messages` is an
array (of any length). -/
def chatBodyValid (b : ChatBody) : Bool :=
  match b.messages with
  | .array _ => true
  | .notArray => false

/-! ### /api/transcribe -/

/-- An audio file: its byte size and declared MIME type. -/
structure File where
  size : Nat
  type : String
deriving DecidableEq

/-- The allow-list of validateAudioFile (line 47). -/
def allowedTypes : List String :=
  ["audio/webm", "audio/mp4", "audio/wav", "audio/mpeg"]

structure ValidationResult where
  valid : Bool
  error : Option String
deriving DecidableEq

/-- validateAudioFile (lines 45-60): 5MB size cap, then MIME allow-list. -/
def validateAudioFile (file : File) : ValidationResult :=
  let maxSize := 5 * 1024 * 1024
  if file.size > maxSize then
    { valid := false, error := some "File size exceeds 5MB limit" }
  else if !(allowedTypes.contains file.type) then
    { valid := false,
      error := some ("Unsupported audio format. Allowed: " ++ String.intercalate ", " allowedTypes) }
  else
    { valid := true, error := none }

/-- The five canned transcriptions of transcribeAudio (lines 33-39). -/
def mockTranscriptions : List String :=
  ["Hello, this is a test transcription of the audio file.",
   "Can you hear me clearly? I'm testing the audio transcription feature.",
   "This is another example of what a transcribed audio message might look like.",
   "The weather is really nice today, don't you think?",
   "I'm excited to try out this new chat application with voice features."]

/-- transcribeAudio (lines 29-42): the mock backend resolves with a random
canned string and never rejects (hence `Except Unit` with no error case
reachable, kept to model the handler's inner try/catch faithfully). -/
def transcribeAudio (_audioFile : File) (rand : Nat) : Except Unit String :=
  .ok (pickRandom mockTranscriptions rand)

/-- A JavaScript runtime error. -/
inductive JsError where
  | referenceError (name : String)
deriving DecidableEq

/-- The local names bound in the body of handleTranscribeRequest before
line 118 executes: the parameter `req` and the consts of lines 112-115.
No declaration anywhere in src/be/index.ts binds the name "audioFile". -/
def transcribeScope : List String :=
  ["req", "url", "messageId", "arrayBuffer", "audioBuffer"]

/-- Evaluating the identifier `audioFile` in the condition `if (!audioFile)`
(line 118): reading a name that is not in scope raises a ReferenceError.
The `.ok` arm is dead: "audioFile" is not in `transcribeScope`. -/
def readAudioFile : Except JsError (Option File) :=
  if "audioFile" ∈ transcribeScope then .ok none
  else .error (.referenceError "audioFile")

/-- The branches of handleTranscribeRequest below line 118, as they would run
on a value of `audioFile` (lines 118-159): 400 when falsy, otherwise the inner
try transcribes (200) and its catch maps a backend failure to 503.  The second
component records whether transcribeAudio was invoked. -/
def transcribeBranches (audioFile : Option File) (rand : Nat) : HttpResponse × Bool :=
  match audioFile with
  | none =>
      ({ status := 400, headers := jsonCORS,
         body := .transcribe none false (some "No audio file provided") }, false)
  | some f =>
      match transcribeAudio f rand with
      | .ok transcription =>
          ({ status := 200, headers := jsonCORS,
             body := .transcribe (some transcription) true none }, true)
      | .error _ =>
          ({ status := 503, headers := jsonCORS,
             body := .transcribe none false (some "Service temporarily unavailable") }, true)

/-- handleTranscribeRequest (lines 110-173).  Line 118 evaluates the
undeclared identifier `audioFile`; the resulting ReferenceError escapes to the
outer catch (lines 160-172), which answers 500.  The second component records
whether transcribeAudio was invoked. -/
def handleTranscribeRequest (_payload : File) (rand : Nat) : HttpResponse × Bool :=
  match readAudioFile with
  | .ok audioFile => transcribeBranches audioFile rand
  | .error _ =>
      ({ status := 500, headers := jsonCORS,
         body := .transcribe none false (some "Internal server error") }, false)

/-! ### WebSocket handlers -/

/-- WebSocketData: the per-connection data attached at upgrade time. -/
structure WebSocketData where
  username : String
  joinedAt : Nat
  userId : String
deriving DecidableEq

/-- An outbound WebSocketMessage as the server builds it. -/
structure WSMessage where
  type : String
  content : String
  username : String
  timestamp : Nat
deriving DecidableEq

/-- A decoded inbound frame: the fields the client's JSON object may carry
(the server reads only `content`; `type` and `username` are client-supplied
and, as the theorems show, ignored). -/
structure InboundFrame where
  type : String
  content : String
  username : String
deriving DecidableEq

/-- An inbound frame as received on the wire: either JSON.parse succeeds with
a decoded object, or it throws. -/
inductive RawFrame where
  | malformed
  | decoded (f : InboundFrame)
deriving DecidableEq

/-- One observable effect of a WebSocket handler, in program order. -/
inductive WSAction where
  /-- ws.send: delivered privately to this connection only -/
  | send (m : WSMessage)
  /-- server.publish: delivered to every current subscriber of the topic,
  the publishing connection included -/
  | publish (topic : String) (m : WSMessage)
  | subscribe (topic : String)
  | unsubscribe (topic : String)
  | close
deriving DecidableEq

/-- websocket.open (lines 245-270): subscribe, broadcast the join message,
then send the private welcome. -/
def openHandler (ws : WebSocketData) (now : Nat) : List WSAction :=
  [.subscribe "main-chat",
   .publish "main-chat"
     { type := "join", content := ws.username ++ " joined the chat",
       username := ws.username, timestamp := now },
   .send
     { type := "chat", content := "Welcome to the chat, " ++ ws.username ++ "!",
       username := "System", timestamp := now }]

/-- websocket.message (lines 273-302): a decoded frame is re-stamped (server
username and timestamp) and broadcast, with no examination of its `type`
field; a parse failure sends one private error frame and nothing else. -/
def messageHandler (ws : WebSocketData) (now : Nat) (raw : RawFrame) : List WSAction :=
  match raw with
  | .decoded data =>
      [.publish "main-chat"
        { type := "chat", content := data.content,
          username := ws.username, timestamp := now }]
  | .malformed =>
      [.send
        { type := "chat", content := "Error: Invalid message format",
          username := "System", timestamp := now }]

/-- websocket.close (lines 305-320): unsubscribe, then broadcast the leave
message. -/
def closeHandler (ws : WebSocketData) (now : Nat) : List WSAction :=
  [.unsubscribe "main-chat",
   .publish "main-chat"
     { type := "leave", content := ws.username ++ " left the chat",
       username := ws.username, timestamp := now }]

/-- The messages a handler broadcasts to "main-chat". -/
def broadcastsOf (acts : List WSAction) : List WSMessage :=
  acts.filterMap fun a =>
    match a with
    | .publish t m => if t = "main-chat" then some m else none
    | _ => none

/-- The messages a handler sends privately to its own connection. -/
def privateSendsOf (acts : List WSAction) : List WSMessage :=
  acts.filterMap fun a =>
    match a with
    | .send m => some m
    | _ => none

/-- Is this action a broadcast to "main-chat"? -/
def isPublishMain (a : WSAction) : Bool :=
  match a with
  | .publish t _ => t = "main-chat"
  | _ => false

/-- What the connection executing the actions observes about itself: whether
it is subscribed to "main-chat" and, in order, the frames delivered to it.  A
private send always reaches it; a server.publish reaches it exactly when it is
subscribed at that moment (Bun's server.publish does not exclude the
publisher). -/
structure SelfView where
  subscribed : Bool
  received : List WSMessage
deriving DecidableEq

def stepSelf (s : SelfView) (a : WSAction) : SelfView :=
  match a with
  | .subscribe t => if t = "main-chat" then { s with subscribed := true } else s
  | .unsubscribe t => if t = "main-chat" then { s with subscribed := false } else s
  | .publish t m =>
      if t = "main-chat" then
        if s.subscribed then { s with received := s.received ++ [m] } else s
      else s
  | .send m => { s with received := s.received ++ [m] }
  | .close => s

/-- Run a handler's actions from the initial state (not yet subscribed,
nothing received). -/
def runSelf (acts : List WSAction) : SelfView :=
  acts.foldl stepSelf { subscribed := false, received := [] }

/-! ### The dispatch (fetch) layer -/

/-- An inbound HTTP request as the fetch handler discriminates it. -/
structure FetchRequest where
  method : String
  pathname : String
  /-- whether server.upgrade succeeds for a /chat request -/
  upgradeSucceeds : Bool
  chatBody : ChatReqBody
  audioPayload : File
deriving DecidableEq

/-- handleOptionsRequest (lines 176-181). -/
def handleOptionsRequest : HttpResponse :=
  { status := 200, headers := getCORSHeaders, body := .empty }

/-- The /health response (lines 222-230). -/
def healthResponse (timestamp : String) : HttpResponse :=
  { status := 200, headers := jsonCORS, body := .health "healthy" timestamp }

/-- The 400 response of a failed /chat upgrade (line 209): built with no
headers at all. -/
def upgradeFailedResponse : HttpResponse :=
  { status := 400, headers := [], body := .text "WebSocket upgrade failed" }

/-- The fetch handler (lines 187-237).  `none` means the request was upgraded
to a WebSocket (the JavaScript handler returns undefined). -/
def fetchHandler (req : FetchRequest) (rand : Nat) (healthTs : String) :
    Option HttpResponse :=
  if req.method = "OPTIONS" then some handleOptionsRequest
  else if req.pathname = "/chat" then
    if req.upgradeSucceeds then none else some upgradeFailedResponse
  else if req.pathname = "/api/chat" && req.method = "POST" then
    some (handleChatRequest req.chatBody rand)
  else if req.pathname = "/api/transcribe" && req.method = "POST" then
    some (handleTranscribeRequest req.audioPayload rand).1
  else if req.pathname = "/health" then
    some (healthResponse healthTs)
  else
    some { status := 404, headers := getCORSHeaders, body := .text "Not Found" }

/-! ### Helper lemmas -/

/-- Every /api/chat response is built with the JSON + CORS header list. -/
theorem hasCORS_handleChat (b : ChatReqBody) (rand : Nat) :
    hasCORSHeaders (handleChatRequest b rand) = true := by
  cases b with
  | malformed => rfl
  | parsed body =>
      obtain ⟨msgs, model, w⟩ := body
      cases msgs with
      | array l => rfl
      | notArray => rfl

/-- Every /api/transcribe response is built with the JSON + CORS header
list. -/
theorem hasCORS_handleTranscribe (p : File) (rand : Nat) :
    hasCORSHeaders (handleTranscribeRequest p rand).1 = true := rfl

/-! ### C1 -/

/-- C1: at the failing input, a 6 MB audio/webm payload, validateAudioFile
would reject (the spec's intent), yet handleTranscribeRequest answers 500
Internal server error rather than a 400-class validation response, because
line 118 reads the undeclared identifier audioFile and the ReferenceError
lands in the outer catch; transcribeAudio is never invoked (second component
false). -/
theorem transcribe_oversized_payload_gets_500 :
    (validateAudioFile { size := 6 * 1024 * 1024, type := "audio/webm" }).valid = false ∧
    handleTranscribeRequest { size := 6 * 1024 * 1024, type := "audio/webm" } 0 =
      ({ status := 500, headers := jsonCORS,
         body := .transcribe none false (some "Internal server error") }, false) :=
  ⟨rfl, rfl⟩

/-! ### C2 -/

/-- C2 counterexample: a successfully decoded frame whose type is "join", not
"chat", still triggers a broadcast to "main-chat", refuting the claim that
only type "chat" triggers broadcast. -/
theorem nonchat_frame_still_broadcasts :
    "join" ≠ "chat" ∧
    (messageHandler { username := "Alice", joinedAt := 0, userId := "u1" } 5
        (.decoded { type := "join", content := "hi", username := "Eve" })).any isPublishMain
      = true := by
  decide

/-- C2 (amended): every successfully decoded inbound frame triggers exactly
one broadcast to "main-chat"; the frame's type field is never examined. -/
theorem decoded_frame_always_broadcasts (ws : WebSocketData) (now : Nat) (f : InboundFrame) :
    (messageHandler ws now (.decoded f)).countP isPublishMain = 1 := rfl

/-! ### C3 -/

/-- C3 counterexample: a /api/chat request whose body is not parseable JSON
gets status 500, which is not a 400-class status. -/
theorem malformed_chat_body_not_400_class :
    (handleChatRequest .malformed 0).status = 500 ∧
    ¬(400 ≤ (handleChatRequest .malformed 0).status ∧
      (handleChatRequest .malformed 0).status < 500) := by
  decide

/-- C3 (amended): a /api/chat request whose body is not parseable JSON is
answered with a 500-status JSON error body; the handler returns normally, so
the process does not crash. -/
theorem malformed_chat_body_returns_json_500 (rand : Nat) :
    handleChatRequest .malformed rand =
      { status := 500, headers := jsonCORS, body := .chatError "Internal server error" } := rfl

/-! ### C4 -/

/-- C4 counterexample: a /api/chat body whose messages field is the empty
list passes the validation (an empty array is truthy and is an array) and is
answered with 200 and an assistant response, not a client error. -/
theorem empty_messages_not_rejected :
    (handleChatRequest
        (.parsed { messages := .array [], model := "m", webSearch := false }) 0).status = 200 ∧
    (handleChatRequest
        (.parsed { messages := .array [], model := "m", webSearch := false }) 0).body =
      .chatOk "assistant"
        "That's a really interesting point! Let me think about that for a moment..." := by
  decide

/-- C4 (amended): only a missing or non-array messages field is rejected,
with 400 and an error-string body; an empty messages array is accepted and
produces a 200 response carrying an assistant message. -/
theorem chat_validation_boundary (rand : Nat) (m : String) (w : Bool) :
    handleChatRequest (.parsed { messages := .notArray, model := m, webSearch := w }) rand =
      { status := 400, headers := jsonCORS, body := .chatError "Messages array is required" } ∧
    (handleChatRequest (.parsed { messages := .array [], model := m, webSearch := w }) rand).status
      = 200 ∧
    (handleChatRequest (.parsed { messages := .array [], model := m, webSearch := w }) rand).body
      = .chatOk "assistant" (pickRandom responses rand) :=
  ⟨rfl, rfl, rfl⟩

/-! ### C5 -/

/-- C5: the chat event broadcast for a decoded frame carries the server's
registered username for the originating connection and the server timestamp
`now`, with the client-supplied content; the client's own username field has
no effect on what is broadcast. -/
theorem broadcast_rebrands_sender (ws : WebSocketData) (now : Nat) (f : InboundFrame) :
    broadcastsOf (messageHandler ws now (.decoded f)) =
      [{ type := "chat", content := f.content, username := ws.username, timestamp := now }] ∧
    broadcastsOf (messageHandler ws now (.decoded f)) =
      broadcastsOf (messageHandler ws now (.decoded { f with username := "spoofed" })) :=
  ⟨rfl, rfl⟩

/-! ### C6 -/

/-- C6: a frame that fails to decode as JSON produces exactly one private
error-shaped send to the originating connection, no broadcast to the topic,
and no close: the connection remains open. -/
theorem malformed_frame_private_error_only (ws : WebSocketData) (now : Nat) :
    messageHandler ws now .malformed =
      [.send { type := "chat", content := "Error: Invalid message format",
               username := "System", timestamp := now }] ∧
    broadcastsOf (messageHandler ws now .malformed) = [] ∧
    WSAction.close ∉ messageHandler ws now .malformed :=
  ⟨rfl, rfl, by simp [messageHandler]⟩

/-! ### C7 -/

/-- C7 counterexample: at a concrete connection the open handler performs the
join broadcast at index 1 and the private welcome send only afterwards at
index 2, refuting the claimed welcome-then-join order. -/
theorem open_order_join_before_welcome :
    (openHandler { username := "Alice", joinedAt := 0, userId := "u1" } 7).get? 1 =
      some (.publish "main-chat"
        { type := "join", content := "Alice joined the chat",
          username := "Alice", timestamp := 7 }) ∧
    (openHandler { username := "Alice", joinedAt := 0, userId := "u1" } 7).get? 2 =
      some (.send
        { type := "chat", content := "Welcome to the chat, Alice!",
          username := "System", timestamp := 7 }) := by
  decide

/-- C7 (amended): on a successful upgrade the server subscribes the new
connection, then broadcasts one join-type frame, then sends one private
chat-type welcome frame; since subscription precedes the join broadcast, the
new connection receives its own join frame, followed by the welcome. -/
theorem open_sequence_and_self_delivery (ws : WebSocketData) (now : Nat) :
    openHandler ws now =
      [.subscribe "main-chat",
       .publish "main-chat"
         { type := "join", content := ws.username ++ " joined the chat",
           username := ws.username, timestamp := now },
       .send
         { type := "chat", content := "Welcome to the chat, " ++ ws.username ++ "!",
           username := "System", timestamp := now }] ∧
    (runSelf (openHandler ws now)).received =
      [{ type := "join", content := ws.username ++ " joined the chat",
         username := ws.username, timestamp := now },
       { type := "chat", content := "Welcome to the chat, " ++ ws.username ++ "!",
         username := "System", timestamp := now }] :=
  ⟨rfl, rfl⟩

/-! ### C8 -/

/-- C8 counterexample: the failed-upgrade response on the /chat path carries
none of the CORS headers. -/
theorem upgrade_failure_lacks_cors :
    (fetchHandler
        { method := "GET", pathname := "/chat", upgradeSucceeds := false,
          chatBody := .malformed, audioPayload := { size := 0, type := "" } } 0 "t0").map
      hasCORSHeaders = some false := by
  decide

/-- C8 (amended): every HTTP response the dispatch layer produces, except
the failed-upgrade response, carries the four fixed permissive CORS
headers. -/
theorem dispatch_responses_carry_cors (req : FetchRequest) (rand : Nat) (ts : String)
    (r : HttpResponse) (h : fetchHandler req rand ts = some r)
    (hr : r ≠ upgradeFailedResponse) :
    hasCORSHeaders r = true := by
  unfold fetchHandler at h
  split_ifs at h
  · injection h with h; subst h; rfl
  · injection h with h; subst h; exact absurd rfl hr
  · injection h with h; subst h; exact hasCORS_handleChat req.chatBody rand
  · injection h with h; subst h; exact hasCORS_handleTranscribe req.audioPayload rand
  · injection h with h; subst h; rfl
  · injection h with h; subst h; rfl

/-- C8 witness: the /health request concretely yields a response carrying the
CORS headers. -/
theorem dispatch_cors_witness : hasCORSHeaders (healthResponse "t0") = true :=
  dispatch_responses_carry_cors
    { method := "GET", pathname := "/health", upgradeSucceeds := true,
      chatBody := .malformed, audioPayload := { size := 0, type := "" } } 0 "t0"
    (healthResponse "t0") rfl (by decide)

/-! ### C9 -/

/-- C9: for /api/chat bodies that pass validation, the response is
independent of messages, model and webSearch: with the same random draw, any
two valid bodies receive the identical response. -/
theorem chat_response_ignores_input (b1 b2 : ChatBody) (rand : Nat)
    (h1 : chatBodyValid b1 = true) (h2 : chatBodyValid b2 = true) :
    handleChatRequest (.parsed b1) rand = handleChatRequest (.parsed b2) rand := by
  obtain ⟨m1, mo1, w1⟩ := b1
  obtain ⟨m2, mo2, w2⟩ := b2
  cases m1 with
  | notArray => simp [chatBodyValid] at h1
  | array l1 =>
      cases m2 with
      | notArray => simp [chatBodyValid] at h2
      | array l2 => rfl

/-- C9 witness: two concrete valid bodies with different messages, model and
webSearch receive the identical response. -/
theorem chat_response_ignores_input_witness :
    handleChatRequest
        (.parsed { messages := .array [{ text := "hello", role := "user" }],
                   model := "gpt-4", webSearch := true }) 3 =
      handleChatRequest
        (.parsed { messages := .array [], model := "", webSearch := false }) 3 :=
  chat_response_ignores_input _ _ 3 rfl rfl

/-! ### C10 -/

/-- C10: every /api/transcribe request, whatever its payload, is answered
with status 500 and body error "Internal server error", success false, and
the transcription backend is never invoked (second component false): the 200,
400 and 503 branches are unreachable. -/
theorem transcribe_always_500 (p : File) (rand : Nat) :
    handleTranscribeRequest p rand =
      ({ status := 500, headers := jsonCORS,
         body := .transcribe none false (some "Internal server error") }, false) := rfl

end KawaiiKlarity
